import Mathlib

/-!
Shallow embedding of the NFC card detection/validation core of
`src/app.py` (mensainfo-nfc), covering:

* the event vocabulary actually emitted by the card loop
  (`socketio.emit` calls in `validate_card_async` and `card_check_loop`);
* the external-validation call `validate_card_with_database`
  (app.py lines 259-298);
* the background validator `validate_card_async` (lines 460-534)
  including its `finally` cleanup of `pending_validations`;
* the UID byte formatting of `try_connect_and_get_uid` (line 408);
* the polling loop `card_check_loop` (lines 542-698): the detection
  protocol with its stability-sampling loop, the passive removal branch,
  and the grace-period expiry branch.

Real time is abstracted: the 1.0 s stabilization deadline becomes a
sample budget (each loop iteration sleeps 20 ms, so the deadline bounds
the number of iterations), and the reader is modelled as the stream of
`try_connect_and_get_uid` results it would return.
-/

namespace MensaNfc

/-- Events emitted via `socketio.emit` by the detection/validation core.
Payload fields irrelevant to the claims (messages, timestamps) are kept
only where a claim mentions them. `card_progress` and
`card_processing_cancelled` carry an `Option String` uid because the code
emits them both with a concrete uid and (lines 608-611, 675-682) with no
uid / a `None` uid. `reload` (lines 649, 695) carries no payload. -/
inductive Ev where
  | card_validating (uid : String)
  | card_progress (uid : Option String) (value : Nat)
  | card_processing_cancelled (uid : Option String)
  | card_success (uid : String)
  | card_unauthorized (uid : String)
  | card_validation_error (uid : String) (message : String)
  | card_processing (uid : String)
  | reload
deriving DecidableEq, Repr

/-- Outcome of the HTTP POST inside `validate_card_with_database`
(app.py lines 276-281): either a response with a status code, or one of
the exception classes caught at lines 290-298. -/
inductive ServiceOutcome where
  | httpResponse (status : Nat)
  | timeout
  | requestError (msg : String)
  | otherError (msg : String)
deriving DecidableEq, Repr

/-- Embedding of `validate_card_with_database` (app.py lines 259-298):
`is_valid = 200 <= response.status_code < 300`; every exception
(`Timeout`, `RequestException`, bare `Exception`) is caught and the
function returns `False`. It never raises. -/
def validate_card_with_database : ServiceOutcome → Bool
  | .httpResponse status => decide (200 ≤ status ∧ status < 300)
  | .timeout => false
  | .requestError _ => false
  | .otherError _ => false

/-- The `pending_validations` dict (app.py line 456): uid ↦ whether its
`threading.Event` cancel token has been `set()`. Keys are unique by
construction (entries are only inserted under a `not in` guard). -/
abbrev Registry := List (String × Bool)

/-- `pending_validations.get(uid)`. -/
def regGet (d : Registry) (k : String) : Option Bool :=
  (d.find? (fun p => p.1 == k)).map (fun p => p.2)

/-- `uid in pending_validations`. -/
def regMem (d : Registry) (k : String) : Bool :=
  (regGet d k).isSome

/-- `pending_validations.pop(uid, None)`: drops the entry for `k`. -/
def regPop (d : Registry) (k : String) : Registry :=
  d.filter (fun p => p.1 != k)

/-- `cancel_event.set()` for the token registered under `k`
(idempotent, no-op when no entry exists). -/
def regSet (d : Registry) (k : String) : Registry :=
  d.map (fun p => if p.1 == k then (p.1, true) else p)

/-- Result of one `validate_card_async` run: the events it emitted and
the registry after its `finally` cleanup. (The `finally` block also
clears the `reading_in_progress` flag and `last_uid`; those globals are
modelled in `PollState` for the polling loop.) -/
structure VResult where
  events : List Ev
  reg : Registry
deriving DecidableEq, Repr

/-- Embedding of `validate_card_async` (app.py lines 460-534).

* `cancelSetAtCheckpoint` is the value `cancel_event.is_set()` reads at
  the pre-emission checkpoint (line 487); the validator holds the token
  object captured at spawn time.
* `bodyExc` models an exception escaping the `try` body before the
  checkpoint (the `except` at line 518); `validate_card_with_database`
  itself never raises, and every emit is individually wrapped, so in the
  paths the claims exercise `bodyExc = none`.
* The `finally` block (lines 524-534) pops the uid from the registry on
  every path, exceptional or not. -/
def validate_card_async (uid : String) (outcome : ServiceOutcome)
    (cancelSetAtCheckpoint : Bool) (bodyExc : Option String)
    (reg : Registry) : VResult :=
  let pre := [Ev.card_validating uid, Ev.card_progress (some uid) 70]
  let body : List Ev :=
    match bodyExc with
    | some msg => [Ev.card_validation_error uid msg]
    | none =>
      let is_valid := validate_card_with_database outcome
      if cancelSetAtCheckpoint then
        [Ev.card_processing_cancelled (some uid)]
      else
        Ev.card_progress (some uid) 100 ::
          (if is_valid then [Ev.card_success uid] else [Ev.card_unauthorized uid])
  { events := pre ++ body, reg := regPop reg uid }

/-- `CARD_STABILITY_CHECKS` (app.py line 537): number of consecutive
equal UID samples required for stability. -/
def CARD_STABILITY_CHECKS : Nat := 1

/-- The mutable globals of the polling loop that the claims touch:
`last_uid` (line 450), `reading_in_progress` (line 452) and the
`pending_validations` registry (line 456). (`last_validation_result` is
only ever assigned `None` and never read, so it is omitted.) -/
structure PollState where
  last_uid : Option String
  reading_in_progress : Bool
  pending : Registry
deriving DecidableEq, Repr

/-- Result of the stability-sampling loop (app.py lines 580-601):
the final `sampled_uid`, the final `checks` count, and the
`card_progress` events emitted along the way. -/
structure StabResult where
  sampled : Option String
  checks : Nat
  events : List Ev
deriving DecidableEq, Repr

/-- Embedding of the stability-sampling `while` loop (app.py lines
584-601): `while checks < CARD_STABILITY_CHECKS and elapsed < 1.0`.
Each iteration sleeps 20 ms then reads once, so the 1.0 s deadline
bounds the iteration count: `budget` is that bound, and `stream` is the
sequence of `try_connect_and_get_uid` results (an exhausted stream also
means the deadline was reached). On a confirming read the loop emits
`card_progress` with value `10 + int(30 * (checks / K))` — Python
computes this in floats; exact truncation equals Nat floor division
here. A differing non-`None` read retargets (`sampled_uid = cur`,
`checks = 0`); a `None` read breaks out with `sampled_uid = None`. -/
def stabilityLoop (K : Nat) : Nat → Option String → Nat → List (Option String) → StabResult
  | 0, sampled, checks, _ => ⟨sampled, checks, []⟩
  | Nat.succ budget, sampled, checks, stream =>
    if checks < K then
      match stream with
      | [] => ⟨sampled, checks, []⟩
      | cur :: rest =>
        if cur == sampled then
          let r := stabilityLoop K budget sampled (checks + 1) rest
          ⟨r.sampled, r.checks, Ev.card_progress sampled (10 + (30 * (checks + 1)) / K) :: r.events⟩
        else
          if cur.isNone then ⟨none, 0, []⟩
          else stabilityLoop K budget cur 0 rest
    else ⟨sampled, checks, []⟩

/-- Result of one pass through the detection branch (or a whole tick):
new global state, emitted events, and `some u` when a validator thread
was spawned for uid `u`. -/
structure DetResult where
  st : PollState
  events : List Ev
  spawned : Option String
deriving DecidableEq, Repr

/-- Embedding of the detection protocol (app.py lines 562-637), entered
when a read uid differs from `last_uid` and `reading_in_progress` is
false. It tracks the uid, emits `card_processing` and `card_progress 10`,
runs the stability loop, then:

* `sampled_uid is None` (lines 604-623): emits
  `card_processing_cancelled` (no uid in the payload), sets the cancel
  token for the original `uid` if a registry entry exists, emits
  `card_progress uid 0`, clears tracking;
* otherwise (lines 626-637): emits `card_progress sampled_uid 60` and,
  when `sampled_uid not in pending_validations`, registers a fresh
  (unset) token and spawns `validate_card_async`. Note `last_uid` keeps
  the original `uid` (line 563), never the retargeted `sampled_uid`. -/
def detectionProtocol (K budget : Nat) (uid : String) (st : PollState)
    (stream : List (Option String)) : DetResult :=
  let evs0 := [Ev.card_processing uid, Ev.card_progress (some uid) 10]
  let r := stabilityLoop K budget (some uid) 0 stream
  match r.sampled with
  | none =>
    ⟨{ last_uid := none, reading_in_progress := false, pending := regSet st.pending uid },
     evs0 ++ r.events ++ [Ev.card_processing_cancelled none, Ev.card_progress (some uid) 0],
     none⟩
  | some su =>
    let evs1 := evs0 ++ r.events ++ [Ev.card_progress (some su) 60]
    if regMem st.pending su then
      ⟨{ last_uid := some uid, reading_in_progress := true, pending := st.pending }, evs1, none⟩
    else
      ⟨{ last_uid := some uid, reading_in_progress := true, pending := (su, false) :: st.pending },
       evs1, some su⟩

/-- Embedding of the passive removal branch (app.py lines 640-649),
entered when the read is `None`, `last_uid` is tracked and
`reading_in_progress` is false: it looks up the tracked uid's cancel
token and sets it if a pending entry exists (lines 643-646), clears
tracking, and emits a `reload` event (line 649). -/
def passiveRemovalBranch (st : PollState) : PollState × List Ev :=
  match st.last_uid with
  | some u =>
    ({ last_uid := none, reading_in_progress := st.reading_in_progress,
       pending := regSet st.pending u },
     [Ev.reload])
  | none => (st, [])

/-- Embedding of the grace-period branch (app.py lines 650-682), entered
when the read is `None`, `last_uid` is tracked and `reading_in_progress`
is true. The flicker-wait loop only affects timing; `finalRead` is the
re-read at line 659. If the card reappeared, nothing happens. If it is
still absent: the flag is cleared, the tracked uid's token is set if an
entry exists, `last_uid` is assigned `None` (line 673) and only then are
`card_processing_cancelled` (no uid field, line 675) and
`card_progress {uid: last_uid, progress: 0}` (line 679) emitted — so the
progress payload's uid is `None`, not the episode's uid. -/
def graceExpiryBranch (st : PollState) (finalRead : Option String) : PollState × List Ev :=
  match st.last_uid, finalRead with
  | some u, none =>
    ({ last_uid := none, reading_in_progress := false, pending := regSet st.pending u },
     [Ev.card_processing_cancelled none, Ev.card_progress none 0])
  | _, _ => (st, [])

/-- One iteration of `card_check_loop` (app.py lines 555-682): dispatch
on the initial read and the tick guards (lines 562, 640, 650). -/
def pollTick (K budget : Nat) (st : PollState) (read1 : Option String)
    (stream : List (Option String)) (graceRead : Option String) : DetResult :=
  match read1 with
  | some uid =>
    if (st.last_uid != some uid) && !st.reading_in_progress then
      detectionProtocol K budget uid st stream
    else ⟨st, [], none⟩
  | none =>
    if st.last_uid.isSome && !st.reading_in_progress then
      let r := passiveRemovalBranch st
      ⟨r.1, r.2, none⟩
    else if st.last_uid.isSome && st.reading_in_progress then
      let r := graceExpiryBranch st graceRead
      ⟨r.1, r.2, none⟩
    else ⟨st, [], none⟩

/-- Uppercase hexadecimal digit character, as produced by Python
format spec `X`: `0`-`9` then `A`-`F`. -/
def hexDigitChar (n : Nat) : Char :=
  if n < 10 then Char.ofNat (48 + n) else Char.ofNat (55 + n)

/-- Divide-by-16 digit extraction with explicit fuel (each step divides
the value by 16, so fuel `x` is always enough for value `x`). -/
def hexRevGo : Nat → Nat → List Char
  | 0, x => [hexDigitChar x]
  | fuel + 1, x =>
    if x < 16 then [hexDigitChar x]
    else hexDigitChar (x % 16) :: hexRevGo fuel (x / 16)

/-- Hexadecimal digits of `x`, least significant first (no leading
zeros beyond the single digit of `x < 16`). -/
def hexRev (x : Nat) : List Char :=
  hexRevGo x x

/-- Python `f'{x:02X}'` (app.py line 408): uppercase hex, zero-padded
on the left to a minimum width of 2. -/
def format02X (x : Nat) : List Char :=
  let ds := (hexRev x).reverse
  if ds.length < 2 then List.replicate (2 - ds.length) '0' ++ ds else ds

/-- `uid_hex = ''.join([f'{x:02X}' for x in uid_response])`
(app.py line 408): the uid string returned by a successful card read in
`try_connect_and_get_uid`. -/
def uid_hex (bytes : List Nat) : String :=
  String.mk (List.flatten (bytes.map format02X))

/-- The sixteen characters a Python `X` format can produce. -/
def isUpperHexDigit (c : Char) : Bool :=
  "0123456789ABCDEF".toList.contains c

/-- Number of events in `evs` satisfying `p`. -/
def countP (p : Ev → Bool) (evs : List Ev) : Nat :=
  (evs.filter p).length

/-- The `card_processing_cancelled` events. -/
def isCancelledEv : Ev → Bool
  | .card_processing_cancelled _ => true
  | _ => false

/-- The success / unauthorized / error result events. -/
def isResultEv : Ev → Bool
  | .card_success _ => true
  | .card_unauthorized _ => true
  | .card_validation_error _ _ => true
  | _ => false

/-- Terminal outcome events: results or cancellations. -/
def isTerminalEv (e : Ev) : Bool :=
  isResultEv e || isCancelledEv e

/-- The values carried by the `card_progress` events of a trace, in
emission order. -/
def progressValues (evs : List Ev) : List Nat :=
  evs.filterMap (fun e => match e with
    | .card_progress _ v => some v
    | _ => none)

/-- One whole detection episode started from the idle state: the
detection protocol followed, when a validator was spawned, by that
validator's run with no cancellation observed at its checkpoint and no
body exception. Event multisets of an episode are
interleaving-independent (each event is emitted by exactly one party),
so the validator's events are appended after the poller's. -/
def successfulEpisodeTrace (budget : Nat) (uid : String)
    (stream : List (Option String)) (outcome : ServiceOutcome) : List Ev :=
  let r := detectionProtocol CARD_STABILITY_CHECKS budget uid ⟨none, false, []⟩ stream
  match r.spawned with
  | some su => r.events ++ (validate_card_async su outcome false none r.st.pending).events
  | none => r.events

/-- Scenario C of the spec, as the code executes it: uid `04FF00AA`
stabilizes (one confirming sample, K = 1) and a validator is spawned;
the card is pulled and the grace window elapses before the service
responds (grace branch fires with a `None` re-read, setting the cancel
token); then the service call resolves with `outcome` and the validator
runs its checkpoint against the now-set token. Events are listed in
poller-then-validator order; the counts the claims inspect are
interleaving-independent. -/
def scenarioC_trace (outcome : ServiceOutcome) : List Ev :=
  let r := detectionProtocol CARD_STABILITY_CHECKS 2 "04FF00AA" ⟨none, false, []⟩ [some "04FF00AA"]
  let g := graceExpiryBranch r.st none
  let cancelFlag := (regGet g.1.pending "04FF00AA").getD false
  r.events ++ g.2 ++ (validate_card_async "04FF00AA" outcome cancelFlag none g.1.pending).events

/-- After popping `k`, the registry has no entry for `k`: the lookup in
a filtered list whose predicate excludes `k` fails. -/
lemma regGet_regPop (d : Registry) (k : String) : regGet (regPop d k) k = none := by
  have h : List.find? (fun p => p.1 == k) (regPop d k) = none := by
    rw [List.find?_eq_none]
    intro x hx
    have hk := List.of_mem_filter hx
    simp only [bne_iff_ne, ne_eq] at hk
    simp [hk]
  simp [regGet, h]

/-- C1. Corrected claim: a network/service failure during validation
(timeout, request error, or any other exception inside
`validate_card_with_database`) makes the call return `False`
(fail-closed), and the validator then emits `card_unauthorized` — the
same event as a legitimate denial; no `card_validation_error` is
emitted on these paths (that event only arises from an exception
escaping the validator body itself, which the always-catching
`validate_card_with_database` never produces). -/
theorem service_failure_fail_closed_unauthorized (uid : String) (reg : Registry) (msg : String) :
    validate_card_with_database .timeout = false ∧
    validate_card_with_database (.requestError msg) = false ∧
    validate_card_with_database (.otherError msg) = false ∧
    (validate_card_async uid .timeout false none reg).events =
      [Ev.card_validating uid, Ev.card_progress (some uid) 70,
       Ev.card_progress (some uid) 100, Ev.card_unauthorized uid] ∧
    (validate_card_async uid (.requestError msg) false none reg).events =
      [Ev.card_validating uid, Ev.card_progress (some uid) 70,
       Ev.card_progress (some uid) 100, Ev.card_unauthorized uid] := by
  refine ⟨rfl, rfl, rfl, ?_, ?_⟩ <;> rfl

/-- C1 counterexample: the claim says a timed-out validation is emitted
as `card_validation_error` and never as `card_unauthorized`; but on a
timeout the validator's event list is exactly `card_validating`,
`card_progress 70`, `card_progress 100`, `card_unauthorized` — it
contains `card_unauthorized` and no `card_validation_error`. -/
theorem timeout_reported_as_unauthorized_cex :
    (validate_card_async "04A1B2C3" .timeout false none []).events =
      [Ev.card_validating "04A1B2C3", Ev.card_progress (some "04A1B2C3") 70,
       Ev.card_progress (some "04A1B2C3") 100, Ev.card_unauthorized "04A1B2C3"] ∧
    countP isCancelledEv (validate_card_async "04A1B2C3" .timeout false none []).events = 0 := by
  exact ⟨rfl, rfl⟩

/-- C4. When the validator's pre-emission checkpoint (line 487) observes
the cancel token set, it emits exactly one `card_processing_cancelled`
and returns: its event list contains no `card_success` and no
`card_unauthorized`, for every service outcome and registry. -/
theorem validator_cancel_checkpoint_single_cancelled (uid : String)
    (outcome : ServiceOutcome) (reg : Registry) :
    countP isCancelledEv (validate_card_async uid outcome true none reg).events = 1 ∧
    (∀ u, Ev.card_success u ∉ (validate_card_async uid outcome true none reg).events) ∧
    (∀ u, Ev.card_unauthorized u ∉ (validate_card_async uid outcome true none reg).events) := by
  refine ⟨rfl, ?_, ?_⟩ <;> intro u <;>
    simp [validate_card_async, countP, isCancelledEv]

/-- C6. On every exit path of the validator — success, unauthorized,
cancellation observed at the checkpoint, or an exception from the body —
the `finally` block removes the uid's entry from `pending_validations`:
afterwards the registry has no entry for that uid. -/
theorem validator_registry_cleanup_all_paths (uid : String) (outcome : ServiceOutcome)
    (c : Bool) (exc : Option String) (reg : Registry) :
    regGet (validate_card_async uid outcome c exc reg).reg uid = none := by
  simp only [validate_card_async]
  exact regGet_regPop reg uid

/-- Events of Scenario C in poller-then-validator order, independent of
how the service call resolves: the validator's checkpoint sees the set
token and suppresses the result, emitting a second cancellation. -/
lemma scenarioC_events (outcome : ServiceOutcome) :
    scenarioC_trace outcome =
      [Ev.card_processing "04FF00AA", Ev.card_progress (some "04FF00AA") 10,
       Ev.card_progress (some "04FF00AA") 40, Ev.card_progress (some "04FF00AA") 60,
       Ev.card_processing_cancelled none, Ev.card_progress none 0,
       Ev.card_validating "04FF00AA", Ev.card_progress (some "04FF00AA") 70,
       Ev.card_processing_cancelled (some "04FF00AA")] := rfl

/-- Every single validator run emits exactly one terminal event
(success, unauthorized, error, or cancelled). -/
lemma validator_terminal_count_one (uid : String) (oc : ServiceOutcome)
    (c : Bool) (exc : Option String) (reg : Registry) :
    countP isTerminalEv (validate_card_async uid oc c exc reg).events = 1 := by
  cases exc with
  | some m => rfl
  | none =>
    cases c with
    | true => rfl
    | false =>
      simp only [validate_card_async, countP, isTerminalEv, isResultEv, isCancelledEv]
      cases validate_card_with_database oc <;> rfl

/-- C2. Corrected claim: the validator emits exactly one terminal event
per run, and a grace-window expiry discards the service result — no
success/unauthorized/error is ever emitted for that episode — but
`card_processing_cancelled` is emitted twice, not once: once by the
poller when the grace window elapses and once more by the validator
when the service call resolves against the set token. -/
theorem grace_cancel_discards_result_two_cancelled (outcome : ServiceOutcome)
    (uid : String) (oc : ServiceOutcome) (c : Bool) (exc : Option String) (reg : Registry) :
    countP isResultEv (scenarioC_trace outcome) = 0 ∧
    countP isCancelledEv (scenarioC_trace outcome) = 2 ∧
    countP isTerminalEv (validate_card_async uid oc c exc reg).events = 1 := by
  refine ⟨?_, ?_, validator_terminal_count_one uid oc c exc reg⟩ <;>
    rw [scenarioC_events outcome] <;> rfl

/-- C2 counterexample: in Scenario C (card pulled mid-validation, grace
window elapses, service then resolves) the episode's trace contains two
`card_processing_cancelled` events — not exactly one — and the second
one carries the episode's uid, so a further event for that uid is
emitted after the grace-expiry cancellation. -/
theorem grace_cancel_double_cancelled_cex :
    countP isCancelledEv (scenarioC_trace (.httpResponse 200)) = 2 ∧
    (scenarioC_trace (.httpResponse 200)).getLast? =
      some (Ev.card_processing_cancelled (some "04FF00AA")) := by
  exact ⟨rfl, rfl⟩

/-- The stability loop run on an empty stream returns its arguments
unchanged and emits nothing. -/
lemma stabilityLoop_nil (K budget : Nat) (s : Option String) (checks : Nat) :
    stabilityLoop K budget s checks [] = ⟨s, checks, []⟩ := by
  cases budget with
  | zero => rfl
  | succ b =>
    simp only [stabilityLoop]
    split <;> rfl

/-- A single confirming sample leaves the candidate uid as the sampled
uid, whatever `K`, the budget and the running count are. -/
lemma stabilityLoop_sampled_self (K budget checks : Nat) (uid : String) :
    (stabilityLoop K budget (some uid) checks [some uid]).sampled = some uid := by
  cases budget with
  | zero => rfl
  | succ b =>
    simp only [stabilityLoop]
    by_cases h : checks < K
    · simp only [if_pos h, beq_self_eq_true, if_pos, stabilityLoop_nil]
    · simp only [if_neg h]

/-- C3. Corrected claim: the stabilization loop's outcome alone decides
the episode: if it ends with `sampled_uid = None` (removal observed) no
validator is spawned; if it ends with any non-`None` `sampled_uid` —
including when the 1.0 s deadline elapsed before `K` consecutive equal
samples were counted — the loop falls through to validation and a
validator is spawned for the last sampled uid (provided none is already
pending for it). Deadline expiry without stability is not treated as a
removal. -/
theorem stability_spawn_behavior (K budget : Nat) (uid : String) (st : PollState)
    (stream : List (Option String)) :
    ((stabilityLoop K budget (some uid) 0 stream).sampled = none →
      (detectionProtocol K budget uid st stream).spawned = none) ∧
    (∀ su, (stabilityLoop K budget (some uid) 0 stream).sampled = some su →
      regMem st.pending su = false →
      (detectionProtocol K budget uid st stream).spawned = some su) := by
  constructor
  · intro h
    simp only [detectionProtocol, h]
  · intro su h hmem
    simp only [detectionProtocol, h, hmem]
    rfl

/-- C3 witness: with the code's `CARD_STABILITY_CHECKS = 1`, candidate
`04A1` and a deadline budget of one sample that reads a different card
`04B2`, the loop ends with zero consecutive equal samples
(`checks = 0 < 1`) yet the episode spawns a validator for `04B2`. -/
theorem stability_spawn_behavior_witness :
    (stabilityLoop CARD_STABILITY_CHECKS 1 (some "04A1") 0 [some "04B2"]).sampled = some "04B2" ∧
    regMem (⟨none, false, []⟩ : PollState).pending "04B2" = false ∧
    (detectionProtocol CARD_STABILITY_CHECKS 1 "04A1" ⟨none, false, []⟩ [some "04B2"]).spawned =
      some "04B2" :=
  ⟨by decide, rfl,
    (stability_spawn_behavior CARD_STABILITY_CHECKS 1 "04A1" ⟨none, false, []⟩ [some "04B2"]).2
      "04B2" (by decide) rfl⟩

/-- C3 counterexample: the claim says an episode whose deadline elapses
without `K` consecutive equal samples spawns no validator; but with the
code's `K = 1`, after the single in-deadline sample read `04B2` (a
retarget, so `checks` ended at `0 < K`) the code still spawns a
validator, for `04B2`. -/
theorem deadline_without_stability_spawns_cex :
    (stabilityLoop CARD_STABILITY_CHECKS 1 (some "04A1") 0 [some "04B2"]).checks = 0 ∧
    0 < CARD_STABILITY_CHECKS ∧
    (detectionProtocol CARD_STABILITY_CHECKS 1 "04A1" ⟨none, false, []⟩ [some "04B2"]).spawned =
      some "04B2" := by
  exact ⟨by decide, by decide, by decide⟩

/-- C5. Confirmed: (a) a detection attempt whose stabilized uid already
has a pending registry entry spawns no validator and leaves the
registry unchanged (duplicates are ignored, not queued); (b) reading
the same stable uid on two successive ticks from idle spawns a
validator exactly once — the second tick is rejected by the
`uid != last_uid and not reading_in_progress` guard before any
detection begins. -/
theorem validator_dedup_single_spawn :
    (∀ (K budget : Nat) (uid : String) (st : PollState) (stream : List (Option String))
        (su : String),
      (stabilityLoop K budget (some uid) 0 stream).sampled = some su →
      regMem st.pending su = true →
      (detectionProtocol K budget uid st stream).spawned = none ∧
      (detectionProtocol K budget uid st stream).st.pending = st.pending) ∧
    (∀ (K budget : Nat) (uid : String),
      (pollTick K budget ⟨none, false, []⟩ (some uid) [some uid] none).spawned = some uid ∧
      (pollTick K budget (pollTick K budget ⟨none, false, []⟩ (some uid) [some uid] none).st
          (some uid) [some uid] none).spawned = none) := by
  constructor
  · intro K budget uid st stream su h hmem
    simp only [detectionProtocol, h, hmem]
    exact ⟨rfl, rfl⟩
  · intro K budget uid
    have hfirst :
        pollTick K budget ⟨none, false, []⟩ (some uid) [some uid] none =
          detectionProtocol K budget uid ⟨none, false, []⟩ [some uid] := by
      simp [pollTick]
    have hlast :
        (detectionProtocol K budget uid ⟨none, false, []⟩ [some uid]).st.last_uid = some uid ∧
        (detectionProtocol K budget uid ⟨none, false, []⟩ [some uid]).st.reading_in_progress
          = true ∧
        (detectionProtocol K budget uid ⟨none, false, []⟩ [some uid]).spawned = some uid := by
      simp only [detectionProtocol, stabilityLoop_sampled_self]
      exact ⟨rfl, rfl, rfl⟩
    refine ⟨by rw [hfirst]; exact hlast.2.2, ?_⟩
    rw [hfirst]
    simp only [pollTick, hlast.1, hlast.2.1]
    simp

/-- C7. Corrected claim: on a tick where the read returns no uid while
a uid is tracked and no validation is in flight, the Poller emits a
`reload` event (the code has no `card_removed` event; `reload` carries
no uid payload) and clears tracking; the path is not free of validation
side effects — it looks up the tracked uid's cancellation token and
sets it whenever a pending-validation entry exists. -/
theorem passive_removal_reload_clears_tracking (st : PollState) (u : String)
    (h : st.last_uid = some u) :
    passiveRemovalBranch st =
      ({ last_uid := none, reading_in_progress := st.reading_in_progress,
         pending := regSet st.pending u }, [Ev.reload]) := by
  rcases st with ⟨lu, r, p⟩
  cases h
  rfl

/-- C7 witness: at a state tracking `04AA` with a pending (unset) token
for it, the passive removal branch emits `reload` and sets the token. -/
theorem passive_removal_reload_clears_tracking_witness :
    (⟨some "04AA", false, [("04AA", false)]⟩ : PollState).last_uid = some "04AA" ∧
    passiveRemovalBranch ⟨some "04AA", false, [("04AA", false)]⟩ =
      (⟨none, false, [("04AA", true)]⟩, [Ev.reload]) :=
  ⟨rfl, passive_removal_reload_clears_tracking ⟨some "04AA", false, [("04AA", false)]⟩ "04AA" rfl⟩

/-- C7 counterexample: the claim says this path emits a `card_removed`
event and touches no cancellation token; at a state tracking `04AA`
with a pending entry whose token is unset, the branch in fact emits
only `reload` and flips the token to set. -/
theorem passive_removal_reload_and_token_cex :
    (passiveRemovalBranch ⟨some "04AA", false, [("04AA", false)]⟩).2 = [Ev.reload] ∧
    regGet (passiveRemovalBranch ⟨some "04AA", false, [("04AA", false)]⟩).1.pending "04AA" =
      some true := by
  exact ⟨rfl, rfl⟩

/-- C10. Confirmed: on the grace-window-expiry cancellation path the
code assigns `last_uid = None` (line 673) before emitting the final
`card_progress` (line 679), so that event's uid payload is `None`, not
the cancelled episode's uid. -/
theorem grace_cancel_progress_uid_none (st : PollState) (u : String)
    (h : st.last_uid = some u) :
    (graceExpiryBranch st none).2 =
      [Ev.card_processing_cancelled none, Ev.card_progress none 0] ∧
    (graceExpiryBranch st none).1.last_uid = none := by
  rcases st with ⟨lu, r, p⟩
  cases h
  exact ⟨rfl, rfl⟩

/-- C10 witness: the grace-expiry branch at a state tracking `04FF00AA`
mid-validation emits its final `card_progress` with uid `None`. -/
theorem grace_cancel_progress_uid_none_witness :
    (⟨some "04FF00AA", true, [("04FF00AA", false)]⟩ : PollState).last_uid = some "04FF00AA" ∧
    (graceExpiryBranch ⟨some "04FF00AA", true, [("04FF00AA", false)]⟩ none).2 =
      [Ev.card_processing_cancelled none, Ev.card_progress none 0] :=
  ⟨rfl,
    (grace_cancel_progress_uid_none ⟨some "04FF00AA", true, [("04FF00AA", false)]⟩
      "04FF00AA" rfl).1⟩

set_option maxRecDepth 8192 in
/-- For every byte value, `f'{b:02X}'` yields exactly two characters,
all uppercase hexadecimal digits. -/
lemma byte_format_facts :
    ∀ b : Nat, b < 256 →
      (format02X b).length = 2 ∧ ∀ c ∈ format02X b, isUpperHexDigit c = true := by
  decide

/-- Unfolding of the string built by `uid_hex` to its character list. -/
lemma data_uid_hex (bytes : List Nat) :
    (uid_hex bytes).data = List.flatten (bytes.map format02X) := rfl

/-- The length of the `uid_hex` string is the length of its character
list. -/
lemma length_uid_hex (bytes : List Nat) :
    (uid_hex bytes).length = (List.flatten (bytes.map format02X)).length := rfl

/-- C5 witness: a detection attempt for `04A1` while `04A1` already has
a pending-validation entry spawns nothing and leaves the registry
unchanged. -/
theorem validator_dedup_single_spawn_witness :
    (stabilityLoop 1 1 (some "04A1") 0 [some "04A1"]).sampled = some "04A1" ∧
    regMem ([("04A1", false)] : Registry) "04A1" = true ∧
    (detectionProtocol 1 1 "04A1" ⟨none, false, [("04A1", false)]⟩ [some "04A1"]).spawned =
      none ∧
    (detectionProtocol 1 1 "04A1" ⟨none, false, [("04A1", false)]⟩ [some "04A1"]).st.pending =
      [("04A1", false)] :=
  ⟨by decide, by decide,
    (validator_dedup_single_spawn.1 1 1 "04A1" ⟨none, false, [("04A1", false)]⟩
      [some "04A1"] "04A1" (by decide) (by decide)).1,
    (validator_dedup_single_spawn.1 1 1 "04A1" ⟨none, false, [("04A1", false)]⟩
      [some "04A1"] "04A1" (by decide) (by decide)).2⟩

/-- C9. Confirmed: a successful card read renders each UID byte as
exactly two uppercase hexadecimal digits, so the returned uid string
contains only the characters `0`-`9` and `A`-`F` and has even length. -/
theorem uid_hex_uppercase_even_length (bytes : List Nat) (h : ∀ b ∈ bytes, b < 256) :
    (∀ b ∈ bytes, (format02X b).length = 2) ∧
    (∀ c ∈ (uid_hex bytes).data, isUpperHexDigit c = true) ∧
    (uid_hex bytes).length % 2 = 0 := by
  refine ⟨fun b hb => (byte_format_facts b (h b hb)).1, ?_, ?_⟩
  · intro c hc
    rw [data_uid_hex, List.mem_flatten] at hc
    obtain ⟨l, hl, hcl⟩ := hc
    rw [List.mem_map] at hl
    obtain ⟨b, hb, rfl⟩ := hl
    exact (byte_format_facts b (h b hb)).2 c hcl
  · rw [length_uid_hex]
    induction bytes with
    | nil => rfl
    | cons b bs ih =>
      have hb2 := (byte_format_facts b (h b (List.mem_cons_self b bs))).1
      have hrest := ih (fun x hx => h x (List.mem_cons_of_mem b hx))
      rw [List.map_cons, List.flatten_cons, List.length_append, hb2]
      omega

/-- C9 witness: the four-byte UID `[0x04, 0xA1, 0xB2, 0xC3]` renders as
`04A1B2C3` — every character an uppercase hex digit, length even. -/
theorem uid_hex_uppercase_even_length_witness :
    (∀ b ∈ [4, 161, 178, 195], b < 256) ∧
    uid_hex [4, 161, 178, 195] = "04A1B2C3" ∧
    (uid_hex [4, 161, 178, 195]).length % 2 = 0 :=
  ⟨by decide, by decide,
    (uid_hex_uppercase_even_length [4, 161, 178, 195] (by decide)).2.2⟩

/-- When the consecutive-sample count has already reached `K`, the
stability loop exits immediately, unchanged and silent. -/
lemma stabilityLoop_checks_ge (K budget : Nat) (s : Option String) (checks : Nat)
    (stream : List (Option String)) (h : K ≤ checks) :
    stabilityLoop K budget s checks stream = ⟨s, checks, []⟩ := by
  cases budget with
  | zero => rfl
  | succ b => simp only [stabilityLoop, if_neg (Nat.not_lt.2 h)]

/-- With the code's `K = 1`, every `card_progress` the stability loop
emits carries the value `10 + int(30 * (1 / 1)) = 40`. -/
lemma stab_one_pv_forty (budget : Nat) :
    ∀ (s : Option String) (checks : Nat) (stream : List (Option String)) (v : Nat),
      v ∈ progressValues (stabilityLoop 1 budget s checks stream).events → v = 40 := by
  induction budget with
  | zero =>
    intro s checks stream v hv
    simp [stabilityLoop, progressValues] at hv
  | succ b ih =>
    intro s checks stream v hv
    by_cases h : checks < 1
    · have hc : checks = 0 := Nat.lt_one_iff.1 h
      subst hc
      cases stream with
      | nil => simp [stabilityLoop, progressValues] at hv
      | cons cur rest =>
        simp only [stabilityLoop, if_pos h] at hv
        by_cases he : cur == s
        · rw [if_pos he, stabilityLoop_checks_ge 1 b s (0 + 1) rest (by omega)] at hv
          simpa [progressValues] using hv
        · rw [if_neg he] at hv
          by_cases hn : cur.isNone
          · rw [if_pos hn] at hv
            simp [progressValues] at hv
          · rw [if_neg hn] at hv
            exact ih cur 0 rest v hv
    · rw [stabilityLoop_checks_ge 1 (b + 1) s checks stream (Nat.not_lt.1 h)] at hv
      simp [progressValues] at hv

/-- With `K = 1` a loop run that ends in removal (`sampled_uid = None`)
emitted no progress events: the only event-producing step is a
confirming sample, and with `K = 1` a confirmation ends the loop with a
non-`None` sampled uid. -/
lemma stab_one_none_events (budget : Nat) :
    ∀ (u : String) (checks : Nat) (stream : List (Option String)),
      (stabilityLoop 1 budget (some u) checks stream).sampled = none →
      (stabilityLoop 1 budget (some u) checks stream).events = [] := by
  induction budget with
  | zero =>
    intro u checks stream h
    simp [stabilityLoop] at h
  | succ b ih =>
    intro u checks stream h
    by_cases hk : checks < 1
    · cases stream with
      | nil => simp [stabilityLoop, if_pos hk] at h
      | cons cur rest =>
        simp only [stabilityLoop, if_pos hk] at h ⊢
        by_cases he : cur == some u
        · rw [if_pos he, stabilityLoop_checks_ge 1 b (some u) (checks + 1) rest (by omega)] at h
          simp at h
        · rw [if_neg he] at h ⊢
          by_cases hn : cur.isNone
          · rw [if_pos hn] at h ⊢
          · rw [if_neg hn] at h ⊢
            cases cur with
            | none => simp at hn
            | some c => exact ih c 0 rest h
    · rw [stabilityLoop_checks_ge 1 (b + 1) (some u) checks stream (Nat.not_lt.1 hk)] at h
      simp at h

/-- A list starting at most at 40, continuing with 40s, and finishing
with `60, 70, 100` is non-decreasing. -/
lemma chain_le_forty (l : List Nat) :
    ∀ a, a ≤ 40 → (∀ x ∈ l, x = 40) →
      List.Chain' (fun x y => x ≤ y) (a :: (l ++ [60, 70, 100])) := by
  induction l with
  | nil =>
    intro a ha _
    simp only [List.nil_append, List.chain'_cons, List.chain'_singleton, and_true]
    refine ⟨by omega, by omega, by omega⟩
  | cons x l ih =>
    intro a ha hx
    have hx40 : x = 40 := hx x (List.mem_cons_self x l)
    subst hx40
    rw [List.cons_append, List.chain'_cons]
    exact ⟨ha, ih 40 (le_refl 40) (fun y hy => hx y (List.mem_cons_of_mem 40 hy))⟩

/-- C8. Corrected claim: with the code's `CARD_STABILITY_CHECKS = 1`,
within one detection episode the emitted progress values are
non-decreasing (10 → 40s → 60 → 70 → 100) and reach 100 — only on a run
whose checkpoint did not observe cancellation — on the paths that end
in a genuine success/unauthorized outcome; but each cancellation path
additionally emits a final `card_progress` of value 0 as a UI reset, so
on a cancelled episode the progress sequence ends `..., 0` and is not
non-decreasing. A cancelled validator run never emits 100. -/
theorem progress_monotone_until_cancellation (budget : Nat) (uid : String)
    (stream : List (Option String)) (outcome : ServiceOutcome) :
    (∀ su, (stabilityLoop CARD_STABILITY_CHECKS budget (some uid) 0 stream).sampled = some su →
      List.Chain' (fun x y => x ≤ y)
        (progressValues (successfulEpisodeTrace budget uid stream outcome)) ∧
      100 ∈ progressValues (successfulEpisodeTrace budget uid stream outcome)) ∧
    ((stabilityLoop CARD_STABILITY_CHECKS budget (some uid) 0 stream).sampled = none →
      progressValues (successfulEpisodeTrace budget uid stream outcome) = [10, 0]) ∧
    (∀ u oc reg, 100 ∉ progressValues (validate_card_async u oc true none reg).events) := by
  refine ⟨?_, ?_, ?_⟩
  · intro su h
    simp only [CARD_STABILITY_CHECKS] at h
    have hreg : regMem ([] : Registry) su = false := rfl
    simp only [successfulEpisodeTrace, detectionProtocol, CARD_STABILITY_CHECKS, h, hreg,
      Bool.false_eq_true, if_false]
    simp only [validate_card_async, progressValues, List.filterMap_append, List.filterMap_cons]
    have hall : ∀ x ∈ (stabilityLoop 1 budget (some uid) 0 stream).events.filterMap
        (fun e => match e with | .card_progress _ v => some v | _ => none), x = 40 := by
      intro x hx
      exact stab_one_pv_forty budget (some uid) 0 stream x hx
    constructor
    · cases hv : validate_card_with_database outcome <;>
        simpa using chain_le_forty _ 10 (by omega) hall
    · cases hv : validate_card_with_database outcome <;> simp
  · intro h
    simp only [CARD_STABILITY_CHECKS] at h
    have hev := stab_one_none_events budget uid 0 stream h
    simp only [successfulEpisodeTrace, detectionProtocol, CARD_STABILITY_CHECKS, h, hev]
    rfl
  · intro u oc reg
    simp [validate_card_async, progressValues]

/-- C8 witness: for the episode where `04A1B2C3` confirms once and the
service answers, stabilization yields `04A1B2C3` and the episode's
progress values are non-decreasing and reach 100. -/
theorem progress_monotone_until_cancellation_witness :
    (stabilityLoop CARD_STABILITY_CHECKS 2 (some "04A1B2C3") 0 [some "04A1B2C3"]).sampled =
      some "04A1B2C3" ∧
    List.Chain' (fun x y => x ≤ y)
      (progressValues
        (successfulEpisodeTrace 2 "04A1B2C3" [some "04A1B2C3"] (.httpResponse 200))) ∧
    100 ∈ progressValues
      (successfulEpisodeTrace 2 "04A1B2C3" [some "04A1B2C3"] (.httpResponse 200)) :=
  ⟨by decide,
    ((progress_monotone_until_cancellation 2 "04A1B2C3" [some "04A1B2C3"]
        (.httpResponse 200)).1 "04A1B2C3" (by decide)).1,
    ((progress_monotone_until_cancellation 2 "04A1B2C3" [some "04A1B2C3"]
        (.httpResponse 200)).1 "04A1B2C3" (by decide)).2⟩

/-- C8 counterexample: the claim says progress values within an episode
never decrease; but in the episode where `04A1B2C3` is read and then
removed during stabilization, the poller emits `card_progress 10`
followed by the cancellation reset `card_progress 0` — the sequence
`[10, 0]` decreases. -/
theorem progress_reset_on_cancel_cex :
    progressValues
        (detectionProtocol CARD_STABILITY_CHECKS 1 "04A1B2C3" ⟨none, false, []⟩ [none]).events =
      [10, 0] ∧
    ¬ List.Chain' (fun x y => x ≤ y)
        (progressValues
          (detectionProtocol CARD_STABILITY_CHECKS 1 "04A1B2C3" ⟨none, false, []⟩
            [none]).events) := by
  have h : progressValues
      (detectionProtocol CARD_STABILITY_CHECKS 1 "04A1B2C3" ⟨none, false, []⟩ [none]).events =
        [10, 0] := by decide
  refine ⟨h, ?_⟩
  rw [h]
  simp [List.chain'_cons]

end MensaNfc
